import Mathlib

/-!
Verification development for the dark-mode hook of `src/src/hooks/useDarkMode.ts`
(repository Innei/xLog).

The hook is embedded shallowly: JavaScript values that may be `undefined`, a
boolean or a string are modelled by `JSVal`; the per-origin persistent store is
an association list from keys to string values; the target DOM element's class
list is a `List String` with `DOMTokenList` add/remove semantics.  Every state
changing operation additionally appends the storage and DOM events it performs
to an effect trace, so that "touches storage / the DOM" is a statement about
the trace.  The external collaborators `getStorage` / `setStorage` /
`delStorage` (from `~/lib/storage`, not under `src/`) are modelled from the
spec, as marked on their doc comments.  The zustand broadcast cell of the
source file is not modelled: no claim refers to it.
-/

set_option autoImplicit false

namespace DarkModeHook

/-- A JavaScript value of type `boolean | string | undefined`, the runtime type
flowing through the hook (the public entry point passes a raw stored string as
the `initialState` that is declared `boolean | undefined`). -/
inductive JSVal where
  | undef
  | bool (b : Bool)
  | str (s : String)
deriving DecidableEq, Repr

/-- JavaScript truthiness of a `JSVal`: `undefined` and `false` are falsy, a
string is truthy iff it is nonempty. -/
def JSVal.truthy : JSVal → Bool
  | .undef => false
  | .bool b => b
  | .str s => s != ""

/-- An observable side effect on the persistent store or on the target
element's class list. -/
inductive Effect where
  | storeRead (key : String)
  | storeWrite (key val : String)
  | storeDel (key : String)
  | domAdd (c : String)
  | domRemove (c : String)
deriving DecidableEq, Repr

/-- The per-origin persistent key-value store: an association list from keys to
string values (first binding for a key wins). -/
abbrev Store := List (String × String)

/-- The execution context: whether a browser (client) environment is available
(`isClient = !isServerSide()`), and the OS `prefers-color-scheme: dark` media
preference. -/
structure Env where
  isClient : Bool
  osDark : Bool
deriving DecidableEq, Repr

/-- The mutable world the hook acts on: the persistent store, the class list of
the target element, and the trace of effects performed so far. -/
structure HookState where
  store : Store
  dom : List String
  trace : List Effect
deriving DecidableEq, Repr

/-- Modelled from the spec: the Preference Store Adapter (`~/lib/storage`, not
under `src/`) reads the string value under a key, tolerating absence (§2); per
§7, with no browser environment all storage operations short-circuit to safe
defaults, so on the server it returns absence without touching the store.  The
adapter's optional second argument (prefixing) is not modelled; keys are used
verbatim.  A performed read is recorded on the trace. -/
def getStorage (env : Env) (s : HookState) (key : String) :
    HookState × Option String :=
  if env.isClient then
    ({ s with trace := s.trace ++ [Effect.storeRead key] }, s.store.lookup key)
  else (s, none)

/-- Modelled from the spec: the Preference Store Adapter writes a string value
under a key (§2), short-circuiting when no browser environment exists (§7). -/
def setStorage (env : Env) (s : HookState) (key val : String) : HookState :=
  if env.isClient then
    { s with
      store := (key, val) :: s.store.filter (fun p => p.1 != key)
      trace := s.trace ++ [Effect.storeWrite key val] }
  else s

/-- Modelled from the spec: the Preference Store Adapter deletes the value
under a key (§2), short-circuiting when no browser environment exists (§7). -/
def delStorage (env : Env) (s : HookState) (key : String) : HookState :=
  if env.isClient then
    { s with
      store := s.store.filter (fun p => p.1 != key)
      trace := s.trace ++ [Effect.storeDel key] }
  else s

/-- The hardcoded module constant `darkModeKey = "darkMode"` (line 28). -/
def darkModeKey : String := "darkMode"

/-- The `detector` closure (lines 44-61): reads the presented stored dark mode
(`storageKey ? (isClient ? undefined : getStorage(storageKey)) : undefined`),
sets Mode from it when it is `"true"`/`"false"`, else falls through to the OS
media preference when no explicit initial state was supplied and running
client-side.  Takes and returns the current Mode (`setDarkMode` not being
called leaves Mode unchanged). -/
def detector (env : Env) (initialState : JSVal) (storageKey : String)
    (s : HookState) (mode : JSVal) : HookState × JSVal :=
  let isClient := env.isClient
  let read :=
    if storageKey ≠ "" then
      if isClient then (s, (none : Option String))
      else getStorage env s storageKey
    else (s, none)
  let s1 := read.1
  let presentedDarkMode := read.2
  match presentedDarkMode with
  | some v =>
    if v = "true" then (s1, JSVal.bool true)
    else if v = "false" then (s1, JSVal.bool false)
    else (s1, mode)
  | none =>
    if initialState = JSVal.undef ∧ isClient = true then
      (s1, JSVal.bool env.osDark)
    else (s1, mode)

/-- The media-query change `handler` (lines 73-82): on an OS preference change
event carrying `eMatches`, read the stored value, set Mode to `eMatches`, and
delete the stored value when its boolean parse (`=== "true"`) equals
`eMatches`. -/
def handler (env : Env) (storageKey : String) (eMatches : Bool)
    (s : HookState) (_mode : JSVal) : HookState × JSVal :=
  let read := getStorage env s storageKey
  let s1 := read.1
  let storageValue := read.2
  let parseStorageValueAsBool : Bool := storageValue == some "true"
  if parseStorageValueAsBool = eMatches then
    (delStorage env s1 storageKey, JSVal.bool eMatches)
  else (s1, JSVal.bool eMatches)

/-- The cross-tab `storageHandler` (lines 84-97): if no stored color mode,
follow the current OS preference; else switch to the stored `"true"`/`"false"`
value (any other stored string leaves Mode unchanged). -/
def storageHandler (env : Env) (storageKey : String)
    (s : HookState) (mode : JSVal) : HookState × JSVal :=
  let read := getStorage env s storageKey
  let s1 := read.1
  let storageValue := read.2
  match storageValue with
  | none => (s1, JSVal.bool env.osDark)
  | some v =>
    if v = "true" then (s1, JSVal.bool true)
    else if v = "false" then (s1, JSVal.bool false)
    else (s1, mode)

/-- The `beforeunload` handler (lines 114-122): when the OS preference strictly
equals the current Mode (strict `===`, so only when Mode is that
very boolean), delete the stored value under the hardcoded `darkModeKey` — not
under the configured storage key. -/
def unloadHandler (env : Env) (s : HookState) (mode : JSVal) : HookState :=
  if mode = JSVal.bool env.osDark then delStorage env s darkModeKey else s

/-- The `toggle` closure of the client-side return object (lines 154-162):
`setDarkMode(d => { if (storageKey && !isServerSide()) setStorage(storageKey,
String(!d)); return !d })`.  `!d` is JavaScript negation of the possibly
undefined or string-valued Mode. -/
def toggle (env : Env) (storageKey : String) (s : HookState) (d : JSVal) :
    HookState × JSVal :=
  let newVal : Bool := !d.truthy
  let s1 :=
    if storageKey ≠ "" ∧ env.isClient = true then
      setStorage env s storageKey (toString newVal)
    else s
  (s1, JSVal.bool newVal)

/-- `DOMTokenList.add`: appends the class unless already present. -/
def classListAdd (l : List String) (c : String) : List String :=
  if c ∈ l then l else l ++ [c]

/-- `DOMTokenList.remove`: removes all occurrences of the class. -/
def classListRemove (l : List String) (c : String) : List String :=
  l.filter (fun x => x != c)

/-- The DOM reflection effect (lines 130-143): no-op when server-side or Mode
is undetermined; else remove the "other" class and add the "current" class on
the target element, by JavaScript truthiness of Mode. -/
def reflectDom (env : Env) (classNameDark classNameLight : String)
    (mode : JSVal) (s : HookState) : HookState :=
  if env.isClient = false ∨ mode = JSVal.undef then s
  else if mode.truthy then
    { s with
      dom := classListAdd (classListRemove s.dom classNameLight) classNameDark
      trace := s.trace ++
        [Effect.domRemove classNameLight, Effect.domAdd classNameDark] }
  else
    { s with
      dom := classListAdd (classListRemove s.dom classNameDark) classNameLight
      trace := s.trace ++
        [Effect.domRemove classNameDark, Effect.domAdd classNameLight] }

/-- The synchronous first render pass of `useDarkModeInternal` (lines 40-66):
Mode starts as `initialState` (`useState(initialState)`) and, the
`triggerOnce` latch being unset, `detector()` runs once before returning. -/
def firstRender (env : Env) (initialState : JSVal) (storageKey : String)
    (s : HookState) : HookState × JSVal :=
  detector env initialState storageKey s initialState

/-- The effects that run after mounting (client only — a server render runs no
React effects): the `[darkMode]` effect re-runs `detector()` (lines 68-70), and
the class-reflection effect applies the resulting Mode to the element (lines
130-143).  `detector` is idempotent and does not read Mode, so one application
of each yields the stable post-mount state. -/
def mountEffects (env : Env) (initialState : JSVal)
    (storageKey classNameDark classNameLight : String)
    (s : HookState) (mode : JSVal) : HookState × JSVal :=
  if env.isClient then
    let d := detector env initialState storageKey s mode
    (reflectDom env classNameDark classNameLight d.2 d.1, d.2)
  else (s, mode)

/-- The outcome of one activation of the hook: the final world state, the
internal Mode, and the `value` field of the returned object. -/
structure ActivationResult where
  state : HookState
  mode : JSVal
  value : JSVal
deriving DecidableEq, Repr

/-- One full activation of `useDarkModeInternal` (lines 29-164): the first
render pass, then the mount effects, returning `value: false` when server-side
(lines 145-150) and `value: darkMode` client-side (line 153). -/
def activate (env : Env) (initialState : JSVal)
    (storageKey classNameDark classNameLight : String)
    (s : HookState) : ActivationResult :=
  let r1 := firstRender env initialState storageKey s
  let r2 := mountEffects env initialState storageKey classNameDark
    classNameLight r1.1 r1.2
  if env.isClient then ⟨r2.1, r2.2, r2.2⟩
  else ⟨r2.1, r2.2, JSVal.bool false⟩

/-- The `toggle` field of the object returned by one activation: the real
`toggle` client-side (lines 152-163), the no-op `() => {}` server-side
(lines 145-150). -/
def activationToggle (env : Env) (storageKey : String)
    (s : HookState) (d : JSVal) : HookState × JSVal :=
  if env.isClient then toggle env storageKey s d else (s, d)

/-- The public `useDarkMode` entry point (lines 173-197): activates the
internal hook with `initialState = getStorage(darkModeKey)` — the raw stored
string, not a parsed boolean — and the default configuration.  The publication
of `value`/`toggle` into the zustand broadcast cell is not modelled. -/
def useDarkMode (env : Env) (s : HookState) : ActivationResult :=
  let read := getStorage env s darkModeKey
  let initialState : JSVal :=
    match read.2 with
    | some v => JSVal.str v
    | none => JSVal.undef
  activate env initialState darkModeKey "dark" "light" read.1

/-! ### Helper lemmas on the store and the class list -/

theorem lookup_filter_ne_self (st : Store) (key : String) :
    (st.filter (fun p => p.1 != key)).lookup key = none := by
  induction st with
  | nil => rfl
  | cons a t ih =>
    by_cases h : a.1 = key
    · simp [List.filter_cons, h, ih]
    · have hba : (key == a.1) = false := beq_eq_false_iff_ne.mpr (Ne.symm h)
      simp [List.filter_cons, h, List.lookup, hba, ih]

theorem lookup_cons_self (st : Store) (key v : String) :
    (((key, v) :: st) : Store).lookup key = some v := by
  simp [List.lookup]

theorem mem_classListAdd_self (l : List String) (c : String) :
    c ∈ classListAdd l c := by
  unfold classListAdd
  split <;> simp_all

theorem not_mem_classListRemove_self (l : List String) (c : String) :
    c ∉ classListRemove l c := by
  simp [classListRemove]

theorem not_mem_classListAdd (l : List String) (c c' : String)
    (hne : c' ≠ c) (hl : c' ∉ l) : c' ∉ classListAdd l c := by
  unfold classListAdd
  split <;> simp_all

theorem classListAdd_of_mem (l : List String) (c : String) (h : c ∈ l) :
    classListAdd l c = l := by
  simp [classListAdd, h]

theorem classListRemove_of_not_mem (l : List String) (c : String)
    (h : c ∉ l) : classListRemove l c = l := by
  rw [classListRemove, List.filter_eq_self]
  intro a ha
  simp only [bne_iff_ne, ne_eq]
  exact fun hac => h (hac ▸ ha)

/-! ### Claim theorems -/

/-- Claim C1: the claim states that client-side a stored preference of
`"true"`/`"false"` determines Mode on the first reconciliation pass.  The code
refutes this: the guard `isClient ? undefined : getStorage(storageKey)` reads
storage only when NOT client-side, so with a stored `"true"` under the default
key, no explicit initial value, and an OS preference of light, the first pass
sets Mode to the OS value `false` instead of the stored `true`, without ever
reading the store (the trace stays empty). -/
theorem firstPass_ignores_stored_preference_on_client :
    firstRender ⟨true, false⟩ JSVal.undef "darkMode"
      ⟨[("darkMode", "true")], [], []⟩ =
    (⟨[("darkMode", "true")], [], []⟩, JSVal.bool false) := by
  rfl

/-- Claim C2: when the Environment Probe reports a server context, one full
activation returns `value = false` with a no-op toggle, and leaves the world
(store, DOM class list, effect trace) exactly as it was; the public entry
point likewise. -/
theorem server_activation_safe (env : Env) (initialState : JSVal)
    (storageKey classNameDark classNameLight : String) (s : HookState)
    (hS : env.isClient = false) :
    activate env initialState storageKey classNameDark classNameLight s =
      ⟨s, initialState, JSVal.bool false⟩ ∧
    (∀ d : JSVal, activationToggle env storageKey s d = (s, d)) ∧
    useDarkMode env s = ⟨s, JSVal.undef, JSVal.bool false⟩ := by
  refine ⟨?_, ?_, ?_⟩
  · simp [activate, firstRender, mountEffects, detector, getStorage, hS]
  · intro d
    simp [activationToggle, hS]
  · simp [useDarkMode, getStorage, hS, activate, firstRender, mountEffects,
      detector]

/-- Witness for C2 at a concrete server state: the store and DOM are left
untouched, the value is `false`, the toggle changes nothing. -/
theorem server_activation_safe_spot :
    activate ⟨false, true⟩ (JSVal.bool true) "darkMode" "dark" "light"
      ⟨[("darkMode", "true")], ["light"], []⟩ =
      ⟨⟨[("darkMode", "true")], ["light"], []⟩, JSVal.bool true,
        JSVal.bool false⟩ ∧
    (∀ d : JSVal, activationToggle ⟨false, true⟩ "darkMode"
      ⟨[("darkMode", "true")], ["light"], []⟩ d =
      (⟨[("darkMode", "true")], ["light"], []⟩, d)) ∧
    useDarkMode ⟨false, true⟩ ⟨[("darkMode", "true")], ["light"], []⟩ =
      ⟨⟨[("darkMode", "true")], ["light"], []⟩, JSVal.undef,
        JSVal.bool false⟩ :=
  server_activation_safe ⟨false, true⟩ (JSVal.bool true) "darkMode" "dark"
    "light" ⟨[("darkMode", "true")], ["light"], []⟩ rfl

/-- Claim C3: the claim states the unload handler deletes the stored value
under the configured storage key.  The code deletes under the hardcoded module
constant `darkModeKey = "darkMode"` instead (line 120): with a configured key
`"custom"`, Mode `true` equal to the OS preference, and a stored `"custom" ↦
"false"`, the unload handler leaves the `"custom"` entry in place and issues
the delete against `"darkMode"`. -/
theorem unload_deletes_hardcoded_key_only :
    unloadHandler ⟨true, true⟩ ⟨[("custom", "false")], [], []⟩
      (JSVal.bool true) =
    ⟨[("custom", "false")], [], [Effect.storeDel "darkMode"]⟩ := by
  rfl

/-- Claim C4: client-side with a configured storage key, toggling from a prior
boolean Mode yields its logical negation, and the persisted string under the
key is `String(newValue)`, so the stored preference agrees with Mode
immediately after the toggle. -/
theorem toggle_negates_and_persists (env : Env) (storageKey : String)
    (s : HookState) (b : Bool) (hC : env.isClient = true)
    (hk : storageKey ≠ "") :
    (toggle env storageKey s (JSVal.bool b)).2 = JSVal.bool (!b) ∧
    (toggle env storageKey s (JSVal.bool b)).1.store.lookup storageKey =
      some (toString (!b)) := by
  refine ⟨rfl, ?_⟩
  simp [toggle, setStorage, JSVal.truthy, hC, hk, List.lookup]

/-- Witness for C4: toggling from `false` yields `true` and persists
`"true"`. -/
theorem toggle_negates_and_persists_spot :
    (toggle ⟨true, false⟩ "darkMode" ⟨[], [], []⟩ (JSVal.bool false)).2 =
      JSVal.bool true ∧
    (toggle ⟨true, false⟩ "darkMode" ⟨[], [], []⟩
      (JSVal.bool false)).1.store.lookup "darkMode" = some "true" :=
  toggle_negates_and_persists ⟨true, false⟩ "darkMode" ⟨[], [], []⟩ false rfl
    (by decide)

/-- Claim C5: on an OS preference change event, Mode becomes the new OS value,
and the stored value under the configured key is deleted exactly when its
boolean parse (`=== "true"`) equals the new OS value, being left in place
otherwise. -/
theorem osChange_sets_mode_and_merges_back (env : Env) (storageKey : String)
    (s : HookState) (mode : JSVal) (eMatches : Bool)
    (hC : env.isClient = true) :
    (handler env storageKey eMatches s mode).2 = JSVal.bool eMatches ∧
    (handler env storageKey eMatches s mode).1.store.lookup storageKey =
      (if (s.store.lookup storageKey == some "true") = eMatches then none
       else s.store.lookup storageKey) := by
  unfold handler getStorage delStorage
  simp only [hC, if_true]
  split_ifs with h
  · exact ⟨rfl, lookup_filter_ne_self s.store storageKey⟩
  · exact ⟨rfl, rfl⟩

/-- Witness for C5: with stored `"true"` and the OS switching to dark, Mode
becomes `true` and the stored value is deleted (merge back to system). -/
theorem osChange_sets_mode_and_merges_back_spot :
    (handler ⟨true, true⟩ "darkMode" true
      ⟨[("darkMode", "true")], [], []⟩ JSVal.undef).2 = JSVal.bool true ∧
    (handler ⟨true, true⟩ "darkMode" true
      ⟨[("darkMode", "true")], [], []⟩ JSVal.undef).1.store.lookup
        "darkMode" =
      (if ((([("darkMode", "true")] : Store).lookup "darkMode")
          == some "true") = true then none
       else ([("darkMode", "true")] : Store).lookup "darkMode") :=
  osChange_sets_mode_and_merges_back ⟨true, true⟩ "darkMode"
    ⟨[("darkMode", "true")], [], []⟩ JSVal.undef true rfl

/-- Claim C6: on a cross-tab storage change event, an absent stored value sets
Mode to the current OS preference, a stored `"true"` sets Mode `true`, and a
stored `"false"` sets Mode `false`. -/
theorem storageChange_propagates (env : Env) (storageKey : String)
    (s : HookState) (mode : JSVal) (hC : env.isClient = true) :
    (s.store.lookup storageKey = none →
      (storageHandler env storageKey s mode).2 = JSVal.bool env.osDark) ∧
    (s.store.lookup storageKey = some "true" →
      (storageHandler env storageKey s mode).2 = JSVal.bool true) ∧
    (s.store.lookup storageKey = some "false" →
      (storageHandler env storageKey s mode).2 = JSVal.bool false) := by
  refine ⟨fun h => ?_, fun h => ?_, fun h => ?_⟩ <;>
    simp [storageHandler, getStorage, hC, h]

/-- Witness for C6: a second tab observing `"darkMode" ↦ "true"` transitions
its Mode to `true`. -/
theorem storageChange_propagates_spot :
    (storageHandler ⟨true, false⟩ "darkMode"
      ⟨[("darkMode", "true")], [], []⟩ (JSVal.bool false)).2 =
      JSVal.bool true :=
  (storageChange_propagates ⟨true, false⟩ "darkMode"
    ⟨[("darkMode", "true")], [], []⟩ (JSVal.bool false) rfl).2.1 rfl

/-- Claim C7: client-side, the first reconciliation pass always yields a
determined Mode, and every subsequent operation (re-detection, toggle, OS
change, storage change) maps a determined Mode to a determined Mode. -/
theorem mode_never_undetermined_on_client (env : Env)
    (initialState m : JSVal) (storageKey : String) (s : HookState)
    (eMatches : Bool) (hC : env.isClient = true) (hm : m ≠ JSVal.undef) :
    (firstRender env initialState storageKey s).2 ≠ JSVal.undef ∧
    (detector env initialState storageKey s m).2 ≠ JSVal.undef ∧
    (toggle env storageKey s m).2 ≠ JSVal.undef ∧
    (handler env storageKey eMatches s m).2 ≠ JSVal.undef ∧
    (storageHandler env storageKey s m).2 ≠ JSVal.undef := by
  refine ⟨?_, ?_, ?_, ?_, ?_⟩
  · unfold firstRender detector
    by_cases hi : initialState = JSVal.undef <;> simp [hC, hi]
  · unfold detector
    by_cases hi : initialState = JSVal.undef <;> simp [hC, hi, hm]
  · simp [toggle]
  · simp [handler, apply_ite]
  · unfold storageHandler getStorage
    simp only [hC, if_true]
    rcases s.store.lookup storageKey with _ | v
    · simp
    · dsimp only
      split_ifs <;> simp [hm]

/-- Witness for C7 at a concrete client state with a determined Mode. -/
theorem mode_never_undetermined_on_client_spot :
    (firstRender ⟨true, true⟩ JSVal.undef "darkMode"
      ⟨[], [], []⟩).2 ≠ JSVal.undef ∧
    (detector ⟨true, true⟩ JSVal.undef "darkMode" ⟨[], [], []⟩
      (JSVal.bool true)).2 ≠ JSVal.undef ∧
    (toggle ⟨true, true⟩ "darkMode" ⟨[], [], []⟩
      (JSVal.bool true)).2 ≠ JSVal.undef ∧
    (handler ⟨true, true⟩ "darkMode" false ⟨[], [], []⟩
      (JSVal.bool true)).2 ≠ JSVal.undef ∧
    (storageHandler ⟨true, true⟩ "darkMode" ⟨[], [], []⟩
      (JSVal.bool true)).2 ≠ JSVal.undef :=
  mode_never_undetermined_on_client ⟨true, true⟩ JSVal.undef
    (JSVal.bool true) "darkMode" ⟨[], [], []⟩ false rfl (by decide)

/-- Claim C8: `detector` is idempotent — running it a second time on the state
and Mode produced by a first run (with the environment, initial state and
storage key unchanged) yields the very Mode of the first run, so the
detect-on-Mode-change feedback loop converges. -/
theorem detector_idempotent (env : Env) (initialState : JSVal)
    (storageKey : String) (s : HookState) (m : JSVal) :
    (detector env initialState storageKey
      (detector env initialState storageKey s m).1
      (detector env initialState storageKey s m).2).2 =
    (detector env initialState storageKey s m).2 := by
  unfold detector getStorage
  rcases env with ⟨ic, os⟩
  cases ic <;> by_cases hk : storageKey ≠ "" <;>
    by_cases hi : initialState = JSVal.undef <;> simp [hk, hi]

/-- Removing one class and adding the other is stable: doing it a second time
changes nothing, the added class being present and the removed one absent. -/
theorem add_remove_idem (l : List String) (c c' : String) (h : c ≠ c') :
    classListAdd (classListRemove (classListAdd (classListRemove l c') c) c')
      c =
    classListAdd (classListRemove l c') c := by
  have h1 : c' ∉ classListAdd (classListRemove l c') c :=
    not_mem_classListAdd _ _ _ (Ne.symm h) (not_mem_classListRemove_self l c')
  rw [classListRemove_of_not_mem _ _ h1,
    classListAdd_of_mem _ _ (mem_classListAdd_self _ c)]

/-- Claim C9: applying the DOM Reflector client-side with a determined Mode
leaves exactly one of the two (distinct) configured class names on the
element — the dark one when Mode is truthy, the light one otherwise — and a
second application with the same Mode yields the same class set. -/
theorem reflectDom_exclusive_and_idempotent (env : Env)
    (classNameDark classNameLight : String) (mode : JSVal) (s : HookState)
    (hC : env.isClient = true) (hm : mode ≠ JSVal.undef)
    (hne : classNameDark ≠ classNameLight) :
    (mode.truthy = true →
      classNameDark ∈
        (reflectDom env classNameDark classNameLight mode s).dom ∧
      classNameLight ∉
        (reflectDom env classNameDark classNameLight mode s).dom) ∧
    (mode.truthy = false →
      classNameLight ∈
        (reflectDom env classNameDark classNameLight mode s).dom ∧
      classNameDark ∉
        (reflectDom env classNameDark classNameLight mode s).dom) ∧
    (reflectDom env classNameDark classNameLight mode
      (reflectDom env classNameDark classNameLight mode s)).dom =
    (reflectDom env classNameDark classNameLight mode s).dom := by
  have hcond : ¬(env.isClient = false ∨ mode = JSVal.undef) := by
    simp [hC, hm]
  refine ⟨fun ht => ?_, fun hf => ?_, ?_⟩
  · have hd := mem_classListAdd_self (classListRemove s.dom classNameLight)
      classNameDark
    have hl := not_mem_classListAdd (classListRemove s.dom classNameLight)
      classNameDark classNameLight (Ne.symm hne)
      (not_mem_classListRemove_self s.dom classNameLight)
    simp [reflectDom, hcond, ht, hd, hl]
  · have hd := mem_classListAdd_self (classListRemove s.dom classNameDark)
      classNameLight
    have hl := not_mem_classListAdd (classListRemove s.dom classNameDark)
      classNameLight classNameDark hne
      (not_mem_classListRemove_self s.dom classNameDark)
    simp [reflectDom, hcond, hf, hd, hl]
  · have i1 := add_remove_idem s.dom classNameDark classNameLight hne
    have i2 := add_remove_idem s.dom classNameLight classNameDark
      (Ne.symm hne)
    cases htr : mode.truthy <;> simp [reflectDom, hcond, htr, i1, i2]

/-- Witness for C9 at the default class names, dark Mode, and an element
currently carrying the light class. -/
theorem reflectDom_exclusive_and_idempotent_spot :
    ((JSVal.bool true).truthy = true →
      "dark" ∈ (reflectDom ⟨true, false⟩ "dark" "light" (JSVal.bool true)
        ⟨[], ["light"], []⟩).dom ∧
      "light" ∉ (reflectDom ⟨true, false⟩ "dark" "light" (JSVal.bool true)
        ⟨[], ["light"], []⟩).dom) ∧
    ((JSVal.bool true).truthy = false →
      "light" ∈ (reflectDom ⟨true, false⟩ "dark" "light" (JSVal.bool true)
        ⟨[], ["light"], []⟩).dom ∧
      "dark" ∉ (reflectDom ⟨true, false⟩ "dark" "light" (JSVal.bool true)
        ⟨[], ["light"], []⟩).dom) ∧
    (reflectDom ⟨true, false⟩ "dark" "light" (JSVal.bool true)
      (reflectDom ⟨true, false⟩ "dark" "light" (JSVal.bool true)
        ⟨[], ["light"], []⟩)).dom =
    (reflectDom ⟨true, false⟩ "dark" "light" (JSVal.bool true)
      ⟨[], ["light"], []⟩).dom :=
  reflectDom_exclusive_and_idempotent ⟨true, false⟩ "dark" "light"
    (JSVal.bool true) ⟨[], ["light"], []⟩ rfl (by decide) (by decide)

/-- Claim C10: the public entry point passes the raw stored string as the
explicit initial state, so when `"darkMode" ↦ "false"` is persisted and the
hook runs client-side, the reported value is the truthy string `"false"`, the
result does not depend on the OS preference, and the dark class (not the light
class) ends up on the element. -/
theorem useDarkMode_stored_false_truthy (s : HookState) (os1 os2 : Bool)
    (h : s.store.lookup darkModeKey = some "false") :
    (useDarkMode ⟨true, os1⟩ s).value = JSVal.str "false" ∧
    JSVal.truthy (useDarkMode ⟨true, os1⟩ s).value = true ∧
    "dark" ∈ (useDarkMode ⟨true, os1⟩ s).state.dom ∧
    "light" ∉ (useDarkMode ⟨true, os1⟩ s).state.dom ∧
    useDarkMode ⟨true, os1⟩ s = useDarkMode ⟨true, os2⟩ s := by
  have h' : s.store.lookup "darkMode" = some "false" := h
  have hd := mem_classListAdd_self (classListRemove s.dom "light") "dark"
  have hl := not_mem_classListAdd (classListRemove s.dom "light") "dark"
    "light" (by decide) (not_mem_classListRemove_self s.dom "light")
  refine ⟨?_, ?_, ?_, ?_, ?_⟩ <;>
    simp [useDarkMode, getStorage, darkModeKey, h', activate, firstRender,
      mountEffects, detector, reflectDom, JSVal.truthy, hd, hl]

/-- Witness for C10: with `"darkMode" ↦ "false"` persisted and the light class
on the element, the reported value is the string `"false"` and the dark class
is applied, independently of the OS preference. -/
theorem useDarkMode_stored_false_truthy_spot :
    (useDarkMode ⟨true, false⟩
      ⟨[("darkMode", "false")], ["light"], []⟩).value = JSVal.str "false" ∧
    JSVal.truthy (useDarkMode ⟨true, false⟩
      ⟨[("darkMode", "false")], ["light"], []⟩).value = true ∧
    "dark" ∈ (useDarkMode ⟨true, false⟩
      ⟨[("darkMode", "false")], ["light"], []⟩).state.dom ∧
    "light" ∉ (useDarkMode ⟨true, false⟩
      ⟨[("darkMode", "false")], ["light"], []⟩).state.dom ∧
    useDarkMode ⟨true, false⟩ ⟨[("darkMode", "false")], ["light"], []⟩ =
      useDarkMode ⟨true, true⟩ ⟨[("darkMode", "false")], ["light"], []⟩ :=
  useDarkMode_stored_false_truthy ⟨[("darkMode", "false")], ["light"], []⟩
    false true (by decide)

end DarkModeHook
